import Mathlib

/- Shallow embedding of fatrace-rs (src/main.rs), a fanotify-based filesystem
access monitor.  Rust functions are translated into pure Lean functions; all
OS interactions (reading /proc, opening files, the fanotify syscalls, the
crossbeam channel) are modelled as explicit oracles passed as arguments. -/

/-- The allow-list of filesystem types, `ACCEPTED_FS` in the source. -/
def ACCEPTED_FS : List String := ["ext4", "xfs", "btrfs", "vfat"]

/-- Split a character list at every occurrence of the separator `c`, keeping
empty segments (the list of segments between separators). -/
def splitOnChar (c : Char) : List Char → List (List Char)
  | [] => [[]]
  | x :: xs =>
    if x = c then [] :: splitOnChar c xs
    else
      match splitOnChar c xs with
      | [] => [[x]]
      | g :: gs => (x :: g) :: gs

/-- Drop one trailing carriage return from a segment, as Rust `str::lines`
does for every line that was terminated by a line feed. -/
def stripCR (l : List Char) : List Char :=
  if l.getLast? = some '\r' then l.dropLast else l

/-- Process the segments produced by splitting on a line feed the way Rust
`str::lines` does: every segment but the last was followed by a line feed,
so a trailing carriage return is removed from it; the last segment is the
optional unterminated final line and is dropped when empty. -/
def rustLinesAux : List (List Char) → List (List Char)
  | [] => []
  | [last] => if last.isEmpty then [] else [last]
  | seg :: rest => stripCR seg :: rustLinesAux rest

/-- Rust `str::lines`: split at line feeds, strip a carriage return that
preceded a line feed, and drop the optional empty final segment. -/
def rustLines (s : String) : List String :=
  (rustLinesAux (splitOnChar '\n' s.data)).map String.mk

/-- Accumulator pass behind `splitWhitespace`: groups of consecutive
non-whitespace characters, in order. -/
def splitWSAux : List Char → List Char → List (List Char)
  | [], acc => if acc.isEmpty then [] else [acc.reverse]
  | c :: cs, acc =>
    if c.isWhitespace then
      if acc.isEmpty then splitWSAux cs []
      else acc.reverse :: splitWSAux cs []
    else splitWSAux cs (c :: acc)

/-- Rust `str::split_whitespace`: the maximal runs of non-whitespace
characters of the string, in order, with no empty fields. -/
def splitWhitespace (s : String) : List String :=
  (splitWSAux s.data []).map String.mk

/-- The body of the `for line in content.lines()` loop of `monitored_mounts`:
a line contributes the pair `(device, mountpoint)` of its first two
whitespace-separated fields exactly when it has at least three fields and its
third field (the filesystem type) is in `ACCEPTED_FS`. -/
def lineTarget (line : String) : Option (String × String) :=
  match splitWhitespace line with
  | device :: mountpoint :: fstype :: _ =>
    if fstype ∈ ACCEPTED_FS then some (device, mountpoint) else none
  | _ => none

/-- Function `monitored_mounts` from the source: reads `/proc/mounts` (modelled as an
optional string, `none` when the table cannot be read), iterates over its
lines pushing `(device, mountpoint)` for each accepted line, and returns the
accumulated vector; an unreadable table yields the empty vector. -/
def monitored_mounts (content : Option String) : List (String × String) :=
  match content with
  | none => []
  | some c =>
    (rustLines c).foldl
      (fun mounts line =>
        match lineTarget line with
        | some t => mounts ++ [t]
        | none => mounts) []

lemma monitored_mounts_foldl_eq (ls : List String) (acc : List (String × String)) :
    ls.foldl
      (fun mounts line =>
        match lineTarget line with
        | some t => mounts ++ [t]
        | none => mounts) acc = acc ++ ls.filterMap lineTarget := by
  induction ls generalizing acc with
  | nil => simp
  | cons l ls ih =>
    simp only [List.foldl_cons, List.filterMap_cons]
    cases h : lineTarget l with
    | none => simp [h, ih]
    | some t => simp [h, ih]

/-- Claim C2: `monitored_mounts` returns the empty sequence when the mounts
table cannot be read; over readable content it is the per-line map
`lineTarget` over the table's lines; a line with fewer than three
whitespace-separated fields contributes nothing; a line whose third field is
not in the `ACCEPTED_FS` allow-list contributes nothing; an accepted line
contributes its first two fields verbatim; and the single line
`"/dev/sda1 / ext4 rw 0 0"` yields exactly the target `("/dev/sda1", "/")`. -/
theorem c2_monitored_mounts :
    monitored_mounts none = [] ∧
    (∀ c, monitored_mounts (some c) = (rustLines c).filterMap lineTarget) ∧
    (∀ line, (splitWhitespace line).length < 3 → lineTarget line = none) ∧
    (∀ line f0 f1 f2 rest, splitWhitespace line = f0 :: f1 :: f2 :: rest →
      f2 ∉ ACCEPTED_FS → lineTarget line = none) ∧
    (∀ line f0 f1 f2 rest, splitWhitespace line = f0 :: f1 :: f2 :: rest →
      f2 ∈ ACCEPTED_FS → lineTarget line = some (f0, f1)) ∧
    monitored_mounts (some "/dev/sda1 / ext4 rw 0 0") = [("/dev/sda1", "/")] := by
  refine ⟨rfl, ?_, ?_, ?_, ?_, by decide⟩
  · intro c
    simp [monitored_mounts, monitored_mounts_foldl_eq]
  · intro line h
    unfold lineTarget
    cases hs : splitWhitespace line with
    | nil => rfl
    | cons f0 t0 =>
      cases t0 with
      | nil => rfl
      | cons f1 t1 =>
        cases t1 with
        | nil => rfl
        | cons f2 t2 =>
          simp [hs] at h
          omega
  · intro line f0 f1 f2 rest hs hmem
    simp [lineTarget, hs, hmem]
  · intro line f0 f1 f2 rest hs hmem
    simp [lineTarget, hs, hmem]

/-- fanotify event-mask bit `FAN_ACCESS` (linux/fanotify.h via nix). -/
def FAN_ACCESS : Nat := 0x00000001

/-- fanotify event-mask bit `FAN_MODIFY`. -/
def FAN_MODIFY : Nat := 0x00000002

/-- fanotify event-mask bit `FAN_CLOSE_WRITE`. -/
def FAN_CLOSE_WRITE : Nat := 0x00000008

/-- fanotify event-mask bit `FAN_CLOSE_NOWRITE`. -/
def FAN_CLOSE_NOWRITE : Nat := 0x00000010

/-- fanotify event-mask bit `FAN_OPEN`. -/
def FAN_OPEN : Nat := 0x00000020

/-- fanotify event-mask bit `FAN_MOVED_FROM`. -/
def FAN_MOVED_FROM : Nat := 0x00000040

/-- fanotify event-mask bit `FAN_MOVED_TO`. -/
def FAN_MOVED_TO : Nat := 0x00000080

/-- fanotify event-mask bit `FAN_CREATE`. -/
def FAN_CREATE : Nat := 0x00000100

/-- fanotify event-mask bit `FAN_DELETE`. -/
def FAN_DELETE : Nat := 0x00000200

/-- fanotify event-mask bit `FAN_EVENT_ON_CHILD`. -/
def FAN_EVENT_ON_CHILD : Nat := 0x08000000

/-- bitflags `contains`: every bit of `flag` is set in `mask`. -/
def containsFlag (mask flag : Nat) : Bool := mask &&& flag = flag

/-- One conditional push of `mask_to_code`: the singleton `[c]` when the
mask contains the flag, nothing otherwise. -/
def flagChar (mask flag : Nat) (c : Char) : List Char :=
  if containsFlag mask flag then [c] else []

/-- The characters pushed by the sequence of `contains` checks in
`mask_to_code`, in source order. -/
def maskChars (mask : Nat) : List Char :=
  flagChar mask FAN_OPEN 'O' ++ (flagChar mask FAN_ACCESS 'R' ++
  (flagChar mask FAN_MODIFY 'W' ++ (flagChar mask FAN_CLOSE_WRITE 'C' ++
  (flagChar mask FAN_CLOSE_NOWRITE 'c' ++ (flagChar mask FAN_CREATE '+' ++
  (flagChar mask FAN_DELETE 'D' ++ (flagChar mask FAN_MOVED_FROM '<' ++
  flagChar mask FAN_MOVED_TO '>')))))))

/-- Function `mask_to_code` from the source: push one character per recognized flag
contained in the mask, in source order; if nothing was pushed the string is
`"?"`. -/
def mask_to_code (mask : Nat) : String :=
  let s := maskChars mask
  String.mk (if s.isEmpty then ['?'] else s)

/-- The nine mask flags that `mask_to_code` recognizes. -/
def recognizedFlags : List Nat :=
  [FAN_OPEN, FAN_ACCESS, FAN_MODIFY, FAN_CLOSE_WRITE, FAN_CLOSE_NOWRITE,
   FAN_CREATE, FAN_DELETE, FAN_MOVED_FROM, FAN_MOVED_TO]

/-- Whether the mask contains at least one of the nine recognized flags. -/
def recognizes (mask : Nat) : Bool := recognizedFlags.any (containsFlag mask)

/-- The fixed order in which `mask_to_code` emits its code characters. -/
def codeOrder : List Char := ['O', 'R', 'W', 'C', 'c', '+', 'D', '<', '>']

lemma flagChar_sublist (m f : Nat) (c : Char) : (flagChar m f c).Sublist [c] := by
  unfold flagChar
  split <;> simp

lemma flagChar_eq_nil (m f : Nat) (c : Char) :
    flagChar m f c = [] ↔ containsFlag m f = false := by
  unfold flagChar
  split <;> simp_all

lemma maskChars_sublist (m : Nat) : (maskChars m).Sublist codeOrder := by
  unfold maskChars codeOrder
  refine List.Sublist.append (flagChar_sublist ..) ?_
  refine List.Sublist.append (flagChar_sublist ..) ?_
  refine List.Sublist.append (flagChar_sublist ..) ?_
  refine List.Sublist.append (flagChar_sublist ..) ?_
  refine List.Sublist.append (flagChar_sublist ..) ?_
  refine List.Sublist.append (flagChar_sublist ..) ?_
  refine List.Sublist.append (flagChar_sublist ..) ?_
  exact List.Sublist.append (flagChar_sublist ..) (flagChar_sublist ..)

lemma maskChars_eq_nil (m : Nat) : maskChars m = [] ↔ recognizes m = false := by
  simp only [maskChars, List.append_eq_nil, flagChar_eq_nil, recognizes,
    recognizedFlags, List.any_cons, List.any_nil, Bool.or_eq_false_iff]
  tauto

/-- Claim C3: `mask_to_code` is pure (equal masks give equal strings), a
mask with none of the nine recognized flags encodes to exactly `"?"`, and
the mask with exactly the open and access bits encodes to `"OR"`: it
contains both characters and nothing else. -/
theorem c3_mask_to_code :
    (∀ m1 m2, m1 = m2 → mask_to_code m1 = mask_to_code m2) ∧
    (∀ m, recognizes m = false → mask_to_code m = "?") ∧
    mask_to_code (FAN_OPEN ||| FAN_ACCESS) = "OR" := by
  refine ⟨fun m1 m2 h => by rw [h], ?_, by decide⟩
  intro m h
  have hnil : maskChars m = [] := (maskChars_eq_nil m).mpr h
  simp [mask_to_code, hnil]

/-- Witness for C3 at concrete masks: the queue-overflow bit `0x4000` is
unrecognized and encodes to `"?"`, and open+access encodes to `"OR"`. -/
theorem c3_mask_to_code_witness :
    mask_to_code 0x4000 = "?" ∧ mask_to_code (FAN_OPEN ||| FAN_ACCESS) = "OR" :=
  ⟨c3_mask_to_code.2.1 0x4000 (by decide), c3_mask_to_code.2.2⟩

/-- Claim C10: for every mask the code string is nonempty and at most nine
characters long; when some recognized flag is set its characters are, in
order, a subsequence of `O R W C c + D < >` and `'?'` does not occur; and
when no recognized flag is set the string is exactly `"?"` — so `'?'` only
ever occurs alone. -/
theorem c10_mask_to_code_shape :
    ∀ m, (mask_to_code m).data ≠ [] ∧
    (mask_to_code m).data.length ≤ 9 ∧
    (recognizes m = true →
      (mask_to_code m).data.Sublist codeOrder ∧ '?' ∉ (mask_to_code m).data) ∧
    (recognizes m = false → mask_to_code m = "?") := by
  intro m
  cases hrec : recognizes m with
  | false =>
    have hnil : maskChars m = [] := (maskChars_eq_nil m).mpr hrec
    refine ⟨?_, ?_, ?_, ?_⟩ <;> simp [mask_to_code, hnil]
  | true =>
    have hne : maskChars m ≠ [] := fun h => by
      rw [(maskChars_eq_nil m).mp h] at hrec
      exact Bool.false_ne_true hrec
    have hcode : (mask_to_code m).data = maskChars m := by
      simp [mask_to_code, List.isEmpty_iff, hne]
    have hsub := maskChars_sublist m
    refine ⟨by simp [hcode, hne], ?_, fun _ => ⟨by simp [hcode, hsub], ?_⟩,
      fun h => absurd h (by decide)⟩
    · have := hsub.length_le
      simp only [hcode]
      simpa [codeOrder] using this
    · intro hq
      rw [hcode] at hq
      have := hsub.subset hq
      simp [codeOrder] at this

/-- Witness for C10 at the concrete mask open+delete `0x220`: its code is a
subsequence of the fixed order and contains no question mark. -/
theorem c10_mask_to_code_shape_witness :
    (mask_to_code 0x220).data.Sublist codeOrder ∧ '?' ∉ (mask_to_code 0x220).data :=
  (c10_mask_to_code_shape 0x220).2.2.1 (by decide)

/-- Rust `str::trim` over the character list: whitespace removed from both
ends. -/
def trimChars (l : List Char) : List Char :=
  ((l.dropWhile Char.isWhitespace).reverse.dropWhile Char.isWhitespace).reverse

/-- Function `pid_to_name` from the source: `"unknown"` for a non-positive pid;
otherwise the trimmed content of `/proc/<pid>/comm` — the read is modelled
by the oracle `comm`, `none` when it fails — and `"unknown"` on failure. -/
def pid_to_name (comm : Int → Option String) (pid : Int) : String :=
  if pid ≤ 0 then "unknown"
  else
    match comm pid with
    | some s => String.mk (trimChars s.data)
    | none => "unknown"

/-- Rust format specifier `{:<3}`: the string left-aligned in a field of
minimum width three, filled with spaces on the right. -/
def padAlign3 (code : String) : String :=
  code ++ String.mk (List.replicate (3 - code.data.length) ' ')

/-- The output line of `process_events`, Rust
`format!("{}({}): {:<3} {}", name, pid, code, path)`. -/
def renderLine (name : String) (pid : Int) (code : String) (path : String) : String :=
  name ++ "(" ++ toString pid ++ "): " ++ padAlign3 code ++ " " ++ path

/-- A kernel-delivered fanotify event as the consumer sees it: originating
pid, event mask, and the optional attached file descriptor. -/
structure RawEvent where
  pid : Int
  mask : Nat
  fd : Option Int
deriving DecidableEq

/-- The OS state `process_events` consults: `fdPath` models
`fd_to_path` composed with `Path::display` (the target of
`/proc/self/fd/<fd>`, `none` when the readlink fails), and `comm` models the
content of `/proc/<pid>/comm` (`none` when the read fails). -/
structure ProcEnv where
  fdPath : Int → Option String
  comm : Int → Option String

/-- Function `process_events` from the source, applied to the sequence of events
received from the channel: for each event resolve the process name, encode
the mask, and — only when a descriptor is attached — resolve its path
(substituting `"[unknown]"` on failure) and emit one formatted line. -/
def process_events (env : ProcEnv) (evs : List RawEvent) : List String :=
  evs.filterMap fun ev =>
    let name := pid_to_name env.comm ev.pid
    let code := mask_to_code ev.mask
    match ev.fd with
    | some fd =>
      let path := (env.fdPath fd).getD "[unknown]"
      some (renderLine name ev.pid code path)
    | none => none

/-- The environment of end-to-end scenario 2: descriptor 7 resolves to
`/home/u/file.txt` and pid 1234 has comm `cat`. -/
def scenarioEnv : ProcEnv :=
  { fdPath := fun fd => if fd = 7 then some "/home/u/file.txt" else none,
    comm := fun pid => if pid = 1234 then some "cat" else none }

/-- Claim C1: `process_events` prints exactly one line per event carrying a
descriptor and none for an event without one; the line is
`name(pid): code path` with the code left-aligned to minimum width three;
and the {open, access} event of pid 1234 (comm `cat`) on a descriptor
resolving to `/home/u/file.txt` yields exactly
`cat(1234): OR  /home/u/file.txt`. -/
theorem c1_process_events :
    (∀ env evs, (process_events env evs).length =
      evs.countP (fun ev => ev.fd.isSome)) ∧
    (∀ env ev, ev.fd = none → process_events env [ev] = []) ∧
    (∀ env ev fd p, ev.fd = some fd → env.fdPath fd = some p →
      process_events env [ev] =
        [renderLine (pid_to_name env.comm ev.pid) ev.pid (mask_to_code ev.mask) p]) ∧
    (∀ code, (padAlign3 code).data.length = max 3 code.data.length) ∧
    process_events scenarioEnv [⟨1234, FAN_OPEN ||| FAN_ACCESS, some 7⟩] =
      ["cat(1234): OR  /home/u/file.txt"] := by
  refine ⟨?_, ?_, ?_, ?_, by decide⟩
  · intro env evs
    induction evs with
    | nil => rfl
    | cons ev evs ih =>
      simp only [process_events, List.filterMap_cons, List.countP_cons]
      cases h : ev.fd with
      | none => simpa [h, process_events] using ih
      | some fd => simpa [h, process_events] using ih
  · intro env ev h
    simp [process_events, h]
  · intro env ev fd p h hp
    simp [process_events, h, hp]
  · intro code
    rcases code with ⟨l⟩
    show (l ++ List.replicate (3 - l.length) ' ').length = max 3 l.length
    simp
    omega

/-- Witness for C1 at concrete inputs: an event without a descriptor yields
no line, and the scenario-2 event yields the rendered line. -/
theorem c1_process_events_witness :
    process_events scenarioEnv [⟨1234, 77, none⟩] = [] ∧
    process_events scenarioEnv [⟨1234, FAN_OPEN ||| FAN_ACCESS, some 7⟩] =
      [renderLine (pid_to_name scenarioEnv.comm 1234) 1234
        (mask_to_code (FAN_OPEN ||| FAN_ACCESS)) "/home/u/file.txt"] :=
  ⟨c1_process_events.2.1 scenarioEnv ⟨1234, 77, none⟩ rfl,
   c1_process_events.2.2.1 scenarioEnv ⟨1234, FAN_OPEN ||| FAN_ACCESS, some 7⟩
     7 "/home/u/file.txt" rfl (by decide)⟩

/-- Claim C7: when the path of an attached descriptor cannot be resolved
the consumer substitutes `"[unknown]"` and still prints the line, and when
the comm lookup fails for a positive pid `pid_to_name` returns
`"unknown"` — failures are absorbed locally, never propagated. -/
theorem c7_sentinels :
    (∀ env ev fd, ev.fd = some fd → env.fdPath fd = none →
      process_events env [ev] =
        [renderLine (pid_to_name env.comm ev.pid) ev.pid (mask_to_code ev.mask)
          "[unknown]"]) ∧
    (∀ comm pid, 0 < pid → comm pid = none → pid_to_name comm pid = "unknown") := by
  constructor
  · intro env ev fd h hp
    simp [process_events, h, hp]
  · intro comm pid h hc
    simp [pid_to_name, hc]

/-- Witness for C7 at concrete inputs: with both lookups failing, the event
of pid 1234 with mask open+access and descriptor 5 still prints a full line
built from both sentinels, and the name lookup for pid 42 yields
`"unknown"`. -/
theorem c7_sentinels_witness :
    process_events ⟨fun _ => none, fun _ => none⟩ [⟨1234, 0x21, some 5⟩] =
      ["unknown(1234): OR  [unknown]"] ∧
    pid_to_name (fun _ => none) 42 = "unknown" := by
  constructor
  · rw [c7_sentinels.1 ⟨fun _ => none, fun _ => none⟩ ⟨1234, 0x21, some 5⟩ 5 rfl rfl]
    decide
  · exact c7_sentinels.2 (fun _ => none) 42 (by decide) rfl

/-- Claim C8: for every pid at most zero, `pid_to_name` returns
`"unknown"`, and its result does not depend on the comm oracle at all — no
lookup of the virtual process entry is attempted. -/
theorem c8_nonpositive_pid :
    ∀ comm1 comm2 pid, pid ≤ 0 →
      pid_to_name comm1 pid = "unknown" ∧
      pid_to_name comm1 pid = pid_to_name comm2 pid := by
  intro comm1 comm2 pid h
  constructor <;> simp [pid_to_name, h]

/-- Witness for C8 at pid 0 with two oracles that disagree everywhere. -/
theorem c8_nonpositive_pid_witness :
    pid_to_name (fun _ => some "systemd") 0 = "unknown" ∧
    pid_to_name (fun _ => some "systemd") 0 = pid_to_name (fun _ => none) 0 :=
  c8_nonpositive_pid (fun _ => some "systemd") (fun _ => none) 0 (by decide)

/-- open(2) flag `O_DIRECTORY` (x86-64 Linux values throughout). -/
def O_DIRECTORY : Nat := 0o200000

/-- open(2) flag `O_NOFOLLOW`: fail instead of following a symlink. -/
def O_NOFOLLOW : Nat := 0o400000

/-- open(2) flag `O_CLOEXEC`. -/
def O_CLOEXEC : Nat := 0o2000000

/-- open(2) flag `O_PATH`: obtain a pure path reference. -/
def O_PATH : Nat := 0o10000000

/-- fanotify_mark(2) flag `FAN_MARK_ADD`. -/
def FAN_MARK_ADD : Nat := 0x1

/-- fanotify_mark(2) flag `FAN_MARK_MOUNT`. -/
def FAN_MARK_MOUNT : Nat := 0x10

/-- The syscall arguments recorded by a successful `mark_mount`: the path
and flags of the open(2) call, then the flags, event mask, directory
descriptor and path argument of the fanotify mark call. -/
structure MarkTrace where
  openPath : String
  openFlags : Nat
  markFlags : Nat
  markMask : Nat
  dirfd : Int
  markPath : Option String
deriving DecidableEq

/-- Function `mark_mount` from the source: open the mount path with
`O_PATH | O_DIRECTORY | O_CLOEXEC` — the oracle `openFn` yields the
descriptor, `none` on failure, which the `?` operator propagates — then
call `fan.mark` with `FAN_MARK_ADD | FAN_MARK_MOUNT`, the event mask
`FAN_OPEN | FAN_ACCESS | FAN_EVENT_ON_CHILD`, the opened descriptor, and
the path.  The trace records the arguments of both calls. -/
def mark_mount (openFn : String → Nat → Option Int) (mount_path : String) :
    Option MarkTrace :=
  match openFn mount_path (O_PATH ||| O_DIRECTORY ||| O_CLOEXEC) with
  | none => none
  | some dirfd =>
    some { openPath := mount_path,
           openFlags := O_PATH ||| O_DIRECTORY ||| O_CLOEXEC,
           markFlags := FAN_MARK_ADD ||| FAN_MARK_MOUNT,
           markMask := FAN_OPEN ||| FAN_ACCESS ||| FAN_EVENT_ON_CHILD,
           dirfd := dirfd,
           markPath := some mount_path }

/-- Counterexample to C4 as stated: at the concrete mount path `/` (with an
open oracle that succeeds with descriptor 3) `mark_mount` issues its open
call without any non-following flag — `O_NOFOLLOW` is not contained in the
flags it passes — and its event mask does not contain the modify flag, so
the claimed "non-following" flag and "modify-on-children" interest are both
absent. -/
theorem c4_mark_mount_counterexample :
    mark_mount (fun _ _ => some 3) "/" =
      some ⟨"/", O_PATH ||| O_DIRECTORY ||| O_CLOEXEC,
        FAN_MARK_ADD ||| FAN_MARK_MOUNT,
        FAN_OPEN ||| FAN_ACCESS ||| FAN_EVENT_ON_CHILD, 3, some "/"⟩ ∧
    containsFlag (O_PATH ||| O_DIRECTORY ||| O_CLOEXEC) O_NOFOLLOW = false ∧
    containsFlag (FAN_OPEN ||| FAN_ACCESS ||| FAN_EVENT_ON_CHILD) FAN_MODIFY
      = false := by
  refine ⟨rfl, by decide, by decide⟩

/-- Claim C4 (amended): whenever the open succeeds, `mark_mount` opens the
mount path as a directory-scoped path reference with close-on-exec —
exactly the flags `O_PATH`, `O_DIRECTORY` and `O_CLOEXEC`, each contained
in the value passed — and registers, with the add and mount-scope mark
flags, interest in exactly the open, access, and event-on-child events,
scoped to the whole mount; an open failure propagates as the error. -/
theorem c4_mark_mount_calls :
    ∀ openFn p dirfd,
      openFn p (O_PATH ||| O_DIRECTORY ||| O_CLOEXEC) = some dirfd →
      mark_mount openFn p = some
        { openPath := p, openFlags := O_PATH ||| O_DIRECTORY ||| O_CLOEXEC,
          markFlags := FAN_MARK_ADD ||| FAN_MARK_MOUNT,
          markMask := FAN_OPEN ||| FAN_ACCESS ||| FAN_EVENT_ON_CHILD,
          dirfd := dirfd, markPath := some p } ∧
      containsFlag (O_PATH ||| O_DIRECTORY ||| O_CLOEXEC) O_PATH = true ∧
      containsFlag (O_PATH ||| O_DIRECTORY ||| O_CLOEXEC) O_DIRECTORY = true ∧
      containsFlag (O_PATH ||| O_DIRECTORY ||| O_CLOEXEC) O_CLOEXEC = true ∧
      containsFlag (FAN_MARK_ADD ||| FAN_MARK_MOUNT) FAN_MARK_ADD = true ∧
      containsFlag (FAN_MARK_ADD ||| FAN_MARK_MOUNT) FAN_MARK_MOUNT = true ∧
      containsFlag (FAN_OPEN ||| FAN_ACCESS ||| FAN_EVENT_ON_CHILD) FAN_OPEN
        = true ∧
      containsFlag (FAN_OPEN ||| FAN_ACCESS ||| FAN_EVENT_ON_CHILD) FAN_ACCESS
        = true ∧
      containsFlag (FAN_OPEN ||| FAN_ACCESS ||| FAN_EVENT_ON_CHILD)
        FAN_EVENT_ON_CHILD = true := by
  intro openFn p dirfd h
  refine ⟨?_, by decide, by decide, by decide, by decide, by decide,
    by decide, by decide, by decide⟩
  simp [mark_mount, h]

/-- Witness for the amended C4 at a concrete open oracle and path. -/
theorem c4_mark_mount_calls_witness :
    mark_mount (fun _ _ => some 9) "/home" = some
      { openPath := "/home", openFlags := O_PATH ||| O_DIRECTORY ||| O_CLOEXEC,
        markFlags := FAN_MARK_ADD ||| FAN_MARK_MOUNT,
        markMask := FAN_OPEN ||| FAN_ACCESS ||| FAN_EVENT_ON_CHILD,
        dirfd := 9, markPath := some "/home" } :=
  (c4_mark_mount_calls (fun _ _ => some 9) "/home" 9 rfl).1

/-- The result of one blocking `fan.read_events()` call. -/
inductive ReadResult where
  | ok (batch : List RawEvent)
  | err (msg : String)
deriving DecidableEq

/-- The events of a successful read; none for a failed one. -/
def ReadResult.batch : ReadResult → List RawEvent
  | .ok evs => evs
  | .err _ => []

/-- The standard-error line a read result causes, if any. -/
def readErrorLog : ReadResult → Option String
  | .ok _ => none
  | .err e => some ("fanotify read error: " ++ e)

/-- The channel's receiving side as the producer observes it: `none` when
the consumer stays alive for the whole run (every send succeeds), `some k`
when it is dropped after accepting `k` further events, making every later
send fail. -/
def aliveAfter (alive : Option Nat) (n : Nat) : Option Nat :=
  match alive with
  | none => none
  | some k => some (k - n)

/-- The inner `for ev in events` loop of `spawn_reader`: send the batch's
events in order; the first failed send breaks out of the loop, dropping the
remaining events of the batch. -/
def forwardBatch : Option Nat → List RawEvent → List RawEvent
  | _, [] => []
  | none, ev :: rest => ev :: forwardBatch none rest
  | some 0, _ :: _ => []
  | some (k + 1), ev :: rest => ev :: forwardBatch (some k) rest

/-- Whether the reader loop runs another iteration or exits. -/
inductive LoopControl where
  | continueLoop
  | exitLoop
deriving DecidableEq

/-- The observable effects of one iteration of the `spawn_reader` loop: the
events sent to the channel, the lines logged to standard error, the
milliseconds slept, and whether the loop continues. -/
structure ReaderStep where
  sent : List RawEvent
  logged : List String
  sleptMs : Nat
  control : LoopControl
deriving DecidableEq

/-- One iteration of the infinite `loop` in `spawn_reader`, given the
channel state and the result of the blocking read: a successful read
forwards the batch (stopping at the first failed send), a failed read logs
the error and sleeps 250 ms; neither case leaves the loop. -/
def readerStep (alive : Option Nat) : ReadResult → ReaderStep
  | .ok evs => ⟨forwardBatch alive evs, [], 0, .continueLoop⟩
  | .err e => ⟨[], ["fanotify read error: " ++ e], 250, .continueLoop⟩

/-- The reader loop iterated over a finite sequence of read results,
threading the channel state and accumulating every sent event and every
logged error in order. -/
def readerRun (alive : Option Nat) : List ReadResult → List RawEvent × List String
  | [] => ([], [])
  | r :: rs =>
    let step := readerStep alive r
    let rest := readerRun (aliveAfter alive step.sent.length) rs
    (step.sent ++ rest.1, step.logged ++ rest.2)

lemma forwardBatch_none (evs : List RawEvent) : forwardBatch none evs = evs := by
  induction evs with
  | nil => rfl
  | cons ev rest ih => simpa [forwardBatch] using ih

lemma forwardBatch_some (k : Nat) (evs : List RawEvent) :
    forwardBatch (some k) evs = evs.take k := by
  induction evs generalizing k with
  | nil => simp [forwardBatch]
  | cons ev rest ih =>
    cases k with
    | zero => rfl
    | succ k => simpa [forwardBatch] using ih k

/-- Claim C5: the reader loop never exits — every iteration continues; with
a live consumer a successful read forwards the whole batch in order with
nothing logged and no sleep; with a consumer dropped after `k` more
accepted events only the batch's first `k` events are delivered (the rest
of the batch is dropped, yet the loop continues); a failed read logs one
error line and sleeps exactly 250 ms; and over any finite run with a live
consumer all batches are concatenated in order while every read failure is
logged — there is no retry limit. -/
theorem c5_reader_loop :
    (∀ alive r, (readerStep alive r).control = LoopControl.continueLoop) ∧
    (∀ evs, readerStep none (.ok evs) = ⟨evs, [], 0, .continueLoop⟩) ∧
    (∀ k evs, (readerStep (some k) (.ok evs)).sent = evs.take k) ∧
    (∀ alive e, readerStep alive (.err e) =
      ⟨[], ["fanotify read error: " ++ e], 250, .continueLoop⟩) ∧
    (∀ rs, readerRun none rs =
      ((rs.map ReadResult.batch).flatten, rs.filterMap readErrorLog)) := by
  refine ⟨?_, ?_, ?_, fun _ _ => rfl, ?_⟩
  · intro alive r
    cases r <;> rfl
  · intro evs
    simp [readerStep, forwardBatch_none]
  · intro k evs
    simp [readerStep, forwardBatch_some]
  · intro rs
    induction rs with
    | nil => rfl
    | cons r rs ih =>
      cases r with
      | ok evs =>
        simp [readerRun, readerStep, forwardBatch_none, aliveAfter, ih,
          ReadResult.batch, readErrorLog]
      | err e =>
        simp [readerRun, readerStep, aliveAfter, ih, ReadResult.batch,
          readErrorLog]

/-- The environment `main` runs against: the result of `setup_fanotify`
(`none` for success, `some e` for the fatal init error), the readable
content of `/proc/mounts` (`none` when unreadable), and the per-mount-path
result of `mark_mount` (`none` for success, `some e` for a failure whose
display is `e`). -/
structure MainEnv where
  setupErr : Option String
  mountsContent : Option String
  markErr : String → Option String

/-- The observable outcome of `main`: the process exit code, the lines
printed to standard error, whether the reader thread was spawned and the
consumer loop entered, and the mount paths for which a mark was attempted,
in order. -/
structure MainTrace where
  exitCode : Nat
  stderrLines : List String
  spawnedReader : Bool
  ranConsumer : Bool
  markAttempts : List String
deriving DecidableEq

/-- Function `main` from the source: a `setup_fanotify` failure propagates through
`?` (the Rust runtime prints `Error: e` and the process exits with code 1);
with an empty mount list it prints a diagnostic and returns `Ok` — exit
code 0 — before spawning anything; otherwise it attempts to mark every
mount in order, reporting each failure to standard error and continuing,
then spawns the reader thread and runs the consumer, returning `Ok`. -/
def mainRun (env : MainEnv) : MainTrace :=
  match env.setupErr with
  | some e =>
    { exitCode := 1, stderrLines := ["Error: " ++ e],
      spawnedReader := false, ranConsumer := false, markAttempts := [] }
  | none =>
    let mounts := monitored_mounts env.mountsContent
    if mounts.isEmpty then
      { exitCode := 0, stderrLines := ["No suitable mounts found to monitor."],
        spawnedReader := false, ranConsumer := false, markAttempts := [] }
    else
      { exitCode := 0,
        stderrLines := mounts.filterMap fun dm =>
          (env.markErr dm.2).map fun e => "Failed to mark " ++ dm.2 ++ ": " ++ e,
        spawnedReader := true, ranConsumer := true,
        markAttempts := mounts.map Prod.snd }

/-- Claim C6: `main` exits with code 0 whenever setup succeeds; when setup
succeeds and no suitable mount is found (table empty or unreadable) it
prints exactly the diagnostic to standard error, spawns no thread, runs no
consumer, and still exits 0; when setup fails the exit code is non-zero;
and a non-zero exit code can only come from a setup failure. -/
theorem c6_exit_codes :
    (∀ env, env.setupErr = none → (mainRun env).exitCode = 0) ∧
    (∀ env, env.setupErr = none → monitored_mounts env.mountsContent = [] →
      mainRun env =
        ⟨0, ["No suitable mounts found to monitor."], false, false, []⟩) ∧
    (∀ env e, env.setupErr = some e → (mainRun env).exitCode ≠ 0) ∧
    (∀ env, (mainRun env).exitCode ≠ 0 → env.setupErr ≠ none) := by
  have hzero : ∀ env, env.setupErr = none → (mainRun env).exitCode = 0 := by
    intro env h
    simp only [mainRun, h]
    split <;> rfl
  refine ⟨hzero, ?_, ?_, ?_⟩
  · intro env h hm
    simp [mainRun, h, hm]
  · intro env e h
    simp [mainRun, h]
  · intro env hne hnone
    exact hne (hzero env hnone)

/-- Witness for C6 at concrete environments: an unreadable mounts table
with successful setup yields the diagnostic trace with exit code 0, and a
failed setup yields a non-zero exit code. -/
theorem c6_exit_codes_witness :
    mainRun ⟨none, none, fun _ => none⟩ =
      ⟨0, ["No suitable mounts found to monitor."], false, false, []⟩ ∧
    (mainRun ⟨some "EPERM", none, fun _ => none⟩).exitCode ≠ 0 :=
  ⟨c6_exit_codes.2.1 ⟨none, none, fun _ => none⟩ rfl rfl,
   c6_exit_codes.2.2.1 ⟨some "EPERM", none, fun _ => none⟩ "EPERM" rfl⟩

/-- Claim C9: when setup succeeds and the mark of one discovered mount
fails, `main` reports that failure on standard error, still attempts to
mark every discovered mount in order, proceeds to spawn the reader thread
and run the consumer, and exits 0 — a mark failure is non-fatal. -/
theorem c9_mark_failure_nonfatal :
    ∀ env m e, env.setupErr = none →
      m ∈ (monitored_mounts env.mountsContent).map Prod.snd →
      env.markErr m = some e →
      ("Failed to mark " ++ m ++ ": " ++ e) ∈ (mainRun env).stderrLines ∧
      (mainRun env).markAttempts =
        (monitored_mounts env.mountsContent).map Prod.snd ∧
      (mainRun env).spawnedReader = true ∧
      (mainRun env).ranConsumer = true ∧
      (mainRun env).exitCode = 0 := by
  intro env m e hs hm he
  have hne : (monitored_mounts env.mountsContent).isEmpty = false := by
    rcases List.mem_map.mp hm with ⟨dm, hdm, _⟩
    cases h : monitored_mounts env.mountsContent with
    | nil =>
      rw [h] at hdm
      exact absurd hdm (List.not_mem_nil dm)
    | cons a l => rfl
  simp only [mainRun, hs, hne, Bool.false_eq_true, if_false]
  refine ⟨?_, by trivial, by trivial, by trivial, by trivial⟩
  rcases List.mem_map.mp hm with ⟨dm, hdm, hdm2⟩
  exact List.mem_filterMap.mpr ⟨dm, hdm, by simp [hdm2, he]⟩

/-- The concrete environment of the C9 witness: two accepted mounts, the
mark of the first failing with `EPERM`. -/
def c9Env : MainEnv :=
  { setupErr := none,
    mountsContent := some "/dev/sda1 /a ext4 rw 0 0\n/dev/sdb1 /b xfs rw 0 0",
    markErr := fun p => if p = "/a" then some "EPERM" else none }

/-- Witness for C9 at `c9Env`: the failure of mount `/a` is reported, both
mounts are still attempted, the pipeline runs, and the exit code is 0. -/
theorem c9_mark_failure_nonfatal_witness :
    ("Failed to mark " ++ "/a" ++ ": " ++ "EPERM") ∈ (mainRun c9Env).stderrLines ∧
    (mainRun c9Env).markAttempts =
      (monitored_mounts c9Env.mountsContent).map Prod.snd ∧
    (mainRun c9Env).spawnedReader = true ∧
    (mainRun c9Env).ranConsumer = true ∧
    (mainRun c9Env).exitCode = 0 :=
  c9_mark_failure_nonfatal c9Env "/a" "EPERM" rfl (by decide) (by decide)

/-- Witness for C2 at concrete inputs: a two-field line is excluded, an
`nfs` line is excluded, an `ext4` line is kept verbatim, and the sample
table produces its one target. -/
theorem c2_monitored_mounts_witness :
    lineTarget "a b" = none ∧
    lineTarget "/dev/sr0 /mnt/cd iso9660 ro 0 0" = none ∧
    lineTarget "/dev/sdb2 /home ext4 rw 0 0" = some ("/dev/sdb2", "/home") ∧
    monitored_mounts (some "/dev/sda1 / ext4 rw 0 0") = [("/dev/sda1", "/")] :=
  ⟨c2_monitored_mounts.2.2.1 "a b" (by decide),
   c2_monitored_mounts.2.2.2.1 "/dev/sr0 /mnt/cd iso9660 ro 0 0"
     "/dev/sr0" "/mnt/cd" "iso9660" ["ro", "0", "0"] (by decide) (by decide),
   c2_monitored_mounts.2.2.2.2.1 "/dev/sdb2 /home ext4 rw 0 0"
     "/dev/sdb2" "/home" "ext4" ["rw", "0", "0"] (by decide) (by decide),
   c2_monitored_mounts.2.2.2.2.2⟩
